import Mathlib

/-!
# Lab AI Agent UI: keyword responder, scripted turn, reset and chart rendering

Shallow embedding of `src/components/LabAIAgentUI.jsx`.

Modelling conventions.

* A JavaScript string is a Lean `String`.  Every keyword the component searches
  for is plain ASCII, so searching code points and searching UTF-16 code units
  agree.
* `String.prototype.toLowerCase` is a library function that is not part of the
  component; it is taken as a parameter `toLowerCase : String → String`, so
  every theorem holds for whatever lower-casing the runtime supplies.
  `asciiLower` is one concrete instance, used to evaluate the definitions.
* `Math.random` is an oracle `rand : ℕ → α` over an ordered field with a floor
  function (the rationals, the reals); the state counts the draws made so far.
* `setTimeout` appends a pending timer to the state; a timer callback is a
  first-order value (`Callback`) stored with the variables its closure captured
  (`Closure`).
-/

namespace LabAIAgentUI

/-! ## Strings -/

/-- Does `needle` occur in `hay` as a contiguous block? -/
def occursIn (needle : List Char) : List Char → Bool
  | [] => needle.isEmpty
  | c :: cs => needle.isPrefixOf (c :: cs) || occursIn needle cs

/-- The method `String.prototype.includes(searchString)`, search from position 0. -/
def includes (s searchString : String) : Bool :=
  occursIn searchString.data s.data

/-- A lower-casing that maps `A`–`Z` to `a`–`z` and fixes every other character. -/
def asciiLower (s : String) : String := ⟨s.data.map Char.toLower⟩

/-! ## The keyword responder (source lines 26–76) -/

/-- The answer returned when no rule applies (source line 75). -/
def fallbackAnswer : String :=
  "I checked across the datasets, but I don’t have a precise answer for that. Try asking about reagents, inventory levels, test results, or lab operations."

/-- The function `generateResponse` of the component. -/
def generateResponse (toLowerCase : String → String) (question : String) : String :=
  let q := toLowerCase question
  -- Root cause style analysis
  if includes q "root cause" && includes q "turnaround" then
    "Root cause of delayed turnaround times: (1) Reagent B near expiry causing reruns, (2) Analyzer downtime of 1.5 hours, (3) Increased test load (20% higher than average)."
  else if includes q "root cause" && includes q "inventory" then
    "Inventory-related delays were caused by stock-outs of gloves and syringes, forcing manual handling."
  else if includes q "root cause" && includes q "results" then
    "Result delays were linked to high abnormal rate in Glucose FBS tests, requiring retests."
  -- Chart-specific responses
  else if includes q "reagent" && includes q "chart" then
    "Here’s a summary of reagent consumption trends. See chart below."
  else if includes q "tests" && includes q "chart" then
    "Here’s the daily test trend for the last 7 days. See chart below."
  else if includes q "results" && includes q "chart" then
    "Here’s the distribution of normal vs abnormal results. See chart below."
  else if includes q "inventory" && includes q "chart" then
    "Here’s the stock vs threshold levels for key items. See chart below."
  -- Reagents
  else if includes q "reagent a" then "Reagent A is consumed at 150 ml/day. Stock lasts ~13 days."
  else if includes q "near expiry" then "Reagent B and Reagent H are near expiry (2025-11-30, 2025-12-05)."
  else if includes q "consumption" then "Top consumers: Reagent A (150 ml/day), Reagent C (120 ml/day)."
  -- Operations
  else if includes q "tests yesterday" then "Yesterday, 1,220 tests were performed."
  else if includes q "tests last week" then "A total of 8,765 tests were performed last week (avg 1,252/day)."
  else if includes q "turnaround" then "Average turnaround time last week was 48 minutes."
  else if includes q "downtime" then "Total downtime in the last 7 days was 2.5 hours."
  -- Results
  else if includes q "abnormal glucose" then "46 abnormal Glucose FBS results detected this week (21%)."
  else if includes q "abnormal results" then "2 abnormal results detected today: Hemoglobin (Low), Glucose FBS (High)."
  else if includes q "hemoglobin" then "12% of Hemoglobin results are outside the normal range."
  -- Inventory
  else if includes q "reorder gloves" then "Gloves will last ~8 days. Reorder within 3 days."
  else if includes q "below threshold" then "Gloves, Syringes, and Test Tubes are below safety threshold."
  else if includes q "syringe stock" then "Syringe stock will last for 14 days at current usage rate."
  else fallbackAnswer

/-! ## Reference definition: first match in an ordered rule list -/

/-- A rule: the keywords that must all occur, and the canned answer. -/
structure Rule where
  keywords : List String
  answer : String
  deriving DecidableEq, Repr

/-- A rule applies to a lower-cased question when each keyword occurs in it. -/
def Rule.applies (q : String) (r : Rule) : Bool :=
  r.keywords.all (fun k => includes q k)

/-- The keyword phrase of a rule: its keywords joined by one space. -/
def Rule.phrase (r : Rule) : String := " ".intercalate r.keywords

def rootCauseRules : List Rule :=
  [ ⟨["root cause", "turnaround"], "Root cause of delayed turnaround times: (1) Reagent B near expiry causing reruns, (2) Analyzer downtime of 1.5 hours, (3) Increased test load (20% higher than average)."⟩,
    ⟨["root cause", "inventory"], "Inventory-related delays were caused by stock-outs of gloves and syringes, forcing manual handling."⟩,
    ⟨["root cause", "results"], "Result delays were linked to high abnormal rate in Glucose FBS tests, requiring retests."⟩ ]

def chartRules : List Rule :=
  [ ⟨["reagent", "chart"], "Here’s a summary of reagent consumption trends. See chart below."⟩,
    ⟨["tests", "chart"], "Here’s the daily test trend for the last 7 days. See chart below."⟩,
    ⟨["results", "chart"], "Here’s the distribution of normal vs abnormal results. See chart below."⟩,
    ⟨["inventory", "chart"], "Here’s the stock vs threshold levels for key items. See chart below."⟩ ]

def reagentRules : List Rule :=
  [ ⟨["reagent a"], "Reagent A is consumed at 150 ml/day. Stock lasts ~13 days."⟩,
    ⟨["near expiry"], "Reagent B and Reagent H are near expiry (2025-11-30, 2025-12-05)."⟩,
    ⟨["consumption"], "Top consumers: Reagent A (150 ml/day), Reagent C (120 ml/day)."⟩ ]

def operationsRules : List Rule :=
  [ ⟨["tests yesterday"], "Yesterday, 1,220 tests were performed."⟩,
    ⟨["tests last week"], "A total of 8,765 tests were performed last week (avg 1,252/day)."⟩,
    ⟨["turnaround"], "Average turnaround time last week was 48 minutes."⟩,
    ⟨["downtime"], "Total downtime in the last 7 days was 2.5 hours."⟩ ]

def resultsRules : List Rule :=
  [ ⟨["abnormal glucose"], "46 abnormal Glucose FBS results detected this week (21%)."⟩,
    ⟨["abnormal results"], "2 abnormal results detected today: Hemoglobin (Low), Glucose FBS (High)."⟩,
    ⟨["hemoglobin"], "12% of Hemoglobin results are outside the normal range."⟩ ]

def inventoryRules : List Rule :=
  [ ⟨["reorder gloves"], "Gloves will last ~8 days. Reorder within 3 days."⟩,
    ⟨["below threshold"], "Gloves, Syringes, and Test Tubes are below safety threshold."⟩,
    ⟨["syringe stock"], "Syringe stock will last for 14 days at current usage rate."⟩ ]

/-- The twenty rules in source order. -/
def rules : List Rule :=
  rootCauseRules ++ chartRules ++ reagentRules ++ operationsRules ++ resultsRules ++ inventoryRules

/-- Reference responder: the answer of the first rule of `rs` that applies to `q`,
the fallback when none does. -/
def firstMatchIn (q : String) (rs : List Rule) : String :=
  match rs.find? (fun r => r.applies q) with
  | some r => r.answer
  | none => fallbackAnswer

/-- Reference responder over the full rule list, applied to the lower-cased question. -/
def firstMatch (toLowerCase : String → String) (question : String) : String :=
  firstMatchIn (toLowerCase question) rules

/-! ## Data model (source lines 5–9) -/

/-- The field `role` of a chat message. -/
inductive Role
  | user
  | ai
  | chart
  deriving DecidableEq, Repr

/-- A transcript entry.  An absent field and a `null` field are both `none`. -/
structure ChatMessage where
  role : Role
  text : Option String := none
  chartType : Option String := none
  deriving DecidableEq, Repr

/-- A value stored in a field of a dataset record. -/
inductive JSValue
  | str (s : String)
  | num (n : Int)
  | null
  deriving DecidableEq, Repr

/-- A loosely typed dataset record: field names with their values. -/
abbrev Record := List (String × JSValue)

/-- Field access `r.name`; `none` when the record has no such field. -/
def Record.field (r : Record) (name : String) : Option JSValue := r.lookup name

/-- The four datasets held in view state. -/
structure DatasetBundle where
  reagents : List Record
  operations : List Record
  results : List Record
  inventory : List Record
  deriving DecidableEq, Repr

/-- The four dataset keys. -/
def datasetKeys : List String := ["reagents", "operations", "results", "inventory"]

/-- The dataset stored under a key; no records under any other key. -/
def DatasetBundle.get (d : DatasetBundle) (key : String) : List Record :=
  if key = "reagents" then d.reagents
  else if key = "operations" then d.operations
  else if key = "results" then d.results
  else if key = "inventory" then d.inventory
  else []

/-- The greeting message (source lines 6 and 123). -/
def greeting : ChatMessage :=
  { role := .ai, text := some "Hello! I’m your Lab AI Agent. How can I help you today?" }

/-- The timer callbacks that `handleAsk` creates, in source order. -/
inductive Callback
  | step1
  | step2
  | step3
  | step4
  | afterStep3
  | chartMessage
  deriving DecidableEq, Repr

/-- The variables of one `handleAsk` call that its callbacks capture. -/
structure Closure where
  question : String
  q : String
  source : String
  chartType : Option String
  isRootCause : Bool
  deriving DecidableEq, Repr

/-- A pending `setTimeout`: the delay in milliseconds and the callback. -/
structure Timer where
  delay : Int
  callback : Callback
  env : Closure
  deriving DecidableEq, Repr

/-- View state of the component together with its pending timers and the number
of `Math.random` draws made so far. -/
structure State where
  chat : List ChatMessage
  input : String
  datasets : DatasetBundle
  timers : List Timer
  draws : Nat
  deriving DecidableEq, Repr

/-- State at mount (source lines 5–9): the greeting, no input, empty datasets. -/
def initialState : State :=
  { chat := [greeting]
    input := ""
    datasets := { reagents := [], operations := [], results := [], inventory := [] }
    timers := []
    draws := 0 }

/-! ## The scripted turn (source lines 78–120) -/

section Turn

variable {α : Type} [LinearOrderedField α] [FloorRing α]

/-- The function `randomDelay` (source line 78), with the value `random` that
`Math.random()` returned. -/
def randomDelay (random : α) (min max : Int) : Int :=
  ⌊random * ((max - min + 1 : Int) : α)⌋ + min

/-- The update `setChat(prev => [...prev, m])`. -/
def State.setChat (s : State) (m : ChatMessage) : State :=
  { s with chat := s.chat ++ [m] }

/-- The call `setTimeout(callback, randomDelay(min, max))`. -/
def State.setTimeout (rand : ℕ → α) (s : State) (callback : Callback) (env : Closure)
    (min max : Int) : State :=
  { s with
    timers := s.timers ++ [{ delay := randomDelay (rand s.draws) min max, callback, env }]
    draws := s.draws + 1 }

/-- The sub-agent routing of `handleAsk` (source lines 84–90): `source` and `chartType`. -/
def selectSource (q : String) : String × Option String :=
  if includes q "glove" || includes q "stock" then ("Inventory sub-agent", some "inventory")
  else if includes q "reagent" then ("Reagents sub-agent", some "reagents")
  else if includes q "result" then ("Results sub-agent", some "results")
  else if includes q "test" || includes q "tat" || includes q "downtime" then
    ("Operations sub-agent", some "operations")
  else ("General Lab Agent", none)

/-- The chart condition of `afterStep3` (source line 103). -/
def chartRequested (q : String) : Bool :=
  includes q "chart" || includes q "plot" || includes q "visualize" || includes q "graph"
    || includes q "trend"

/-- The function `handleAsk` up to its first `setTimeout` (source lines 80–94, 119). -/
def handleAsk (toLowerCase : String → String) (rand : ℕ → α) (s : State) (question : String) :
    State :=
  if question = "" then s
  else
    let s := s.setChat { role := .user, text := some question }
    let q := toLowerCase question
    let (source, chartType) := selectSource q
    let isRootCause := includes q "root cause"
    s.setTimeout rand .step1 { question, q, source, chartType, isRootCause } 2000 4000

/-- The body of a timer callback (source lines 95–118). -/
def runCallback (toLowerCase : String → String) (rand : ℕ → α) (s : State) (t : Timer) : State :=
  match t.callback with
  | .step1 =>
    let s := s.setChat { role := .ai, text := some "Step 1: Analyzing your question…" }
    s.setTimeout rand .step2 t.env 2000 5000
  | .step2 =>
    let s := s.setChat { role := .ai, text := some ("Step 2: Connecting to " ++ t.env.source ++ "…") }
    s.setTimeout rand .step3 t.env 2000 5000
  | .step3 =>
    let s := s.setChat { role := .ai, text := some "Step 3: Collecting response from dataset…" }
    if t.env.isRootCause then s.setTimeout rand .step4 t.env 2000 4000
    else s.setTimeout rand .afterStep3 t.env 2000 4000
  | .step4 =>
    let s := s.setChat
      { role := .ai, text := some "Step 4: Correlating metrics across Operations, Reagents, and Inventory…" }
    s.setTimeout rand .afterStep3 t.env 2000 4000
  | .afterStep3 =>
    let aiResponse := generateResponse toLowerCase t.env.question
    let s := s.setChat { role := .ai, text := some ("Final Answer: " ++ aiResponse) }
    if chartRequested t.env.q then s.setTimeout rand .chartMessage t.env 1000 5000 else s
  | .chartMessage =>
    s.setChat { role := .chart, chartType := t.env.chartType }

/-- The function `handleClear` (source lines 122–125). -/
def handleClear (s : State) : State :=
  { s with chat := [greeting], input := "" }

/-- What can happen to the component: the user edits the input box, presses Send
or Enter, presses Clear Chat, the dataset fetch completes, or the pending timer
at position `i` fires. -/
inductive Event
  | type (text : String)
  | send
  | clear
  | loaded (datasets : DatasetBundle)
  | timeout (i : Nat)
  deriving DecidableEq, Repr

/-- One event applied to the state.  A timer that fires is removed from the
pending list before its callback runs. -/
def step (toLowerCase : String → String) (rand : ℕ → α) (s : State) : Event → State
  | .type text => { s with input := text }
  | .send => handleAsk toLowerCase rand s s.input
  | .clear => handleClear s
  | .loaded datasets => { s with datasets := datasets }
  | .timeout i =>
    match s.timers.get? i with
    | some t => runCallback toLowerCase rand { s with timers := s.timers.eraseIdx i } t
    | none => s

/-- A sequence of events applied in order. -/
def run (toLowerCase : String → String) (rand : ℕ → α) (s : State) (events : List Event) : State :=
  events.foldl (step toLowerCase rand) s

/-- Fire the oldest pending timer, at most `fuel` times, until none is pending:
the course of a question that is asked alone. -/
def drain (toLowerCase : String → String) (rand : ℕ → α) : Nat → State → State
  | 0, s => s
  | fuel + 1, s =>
    match s.timers with
    | [] => s
    | _ :: _ => drain toLowerCase rand fuel (step toLowerCase rand s (.timeout 0))

end Turn

/-! ## Chart rendering (source lines 136–199) -/

/-- A chart element: its kind, its data, the axis key and the plotted series
(data key and legend name). -/
inductive Chart
  | bar (data : List Record) (xKey : String) (series : List (String × String))
  | line (data : List Record) (xKey : String) (series : List (String × String))
  | pie (slices : List (String × Nat))
  deriving DecidableEq, Repr

/-- What one transcript entry renders to. -/
inductive Rendered
  | chartContainer (charts : List Chart)
  | bubble (text : Option String)
  deriving DecidableEq, Repr

/-- The charts inside a rendered entry. -/
def Rendered.charts : Rendered → List Chart
  | .chartContainer charts => charts
  | .bubble _ => []

/-- The four guarded chart blocks of a chart container (source lines 138–198). -/
def renderCharts (datasets : DatasetBundle) (msg : ChatMessage) : List Chart :=
  (if msg.chartType = some "reagents" ∧ datasets.reagents.length > 0 then
      [Chart.bar (datasets.reagents.take 10) "name" [("stock", "Stock"), ("usage", "Daily Usage")]]
    else [])
  ++ (if msg.chartType = some "operations" ∧ datasets.operations.length > 0 then
      [Chart.line (datasets.operations.drop (datasets.operations.length - 7)) "date"
        [("tests", "Tests"), ("tat", "TAT (mins)")]]
    else [])
  ++ (if msg.chartType = some "results" ∧ datasets.results.length > 0 then
      [Chart.pie
        [("Normal", (datasets.results.filter
            (fun r => r.field "flag" == some (JSValue.str "Normal"))).length),
         ("Abnormal", (datasets.results.filter
            (fun r => r.field "flag" != some (JSValue.str "Normal"))).length)]]
    else [])
  ++ (if msg.chartType = some "inventory" ∧ datasets.inventory.length > 0 then
      [Chart.bar (datasets.inventory.take 10) "item" [("stock", "Stock"), ("threshold", "Threshold")]]
    else [])

/-- The body of `chat.map` (source lines 134–204). -/
def renderMessage (datasets : DatasetBundle) (msg : ChatMessage) : Rendered :=
  if msg.role = .chart then .chartContainer (renderCharts datasets msg)
  else .bubble msg.text

/-! ## Reference definitions for the scripted turn -/

/-- The source named in Step 2, as the specification words it. -/
def specSource (q : String) : String :=
  if includes q "glove" = true ∨ includes q "stock" = true then "Inventory sub-agent"
  else if includes q "reagent" = true then "Reagents sub-agent"
  else if includes q "result" = true then "Results sub-agent"
  else if includes q "test" = true ∨ includes q "tat" = true ∨ includes q "downtime" = true then
    "Operations sub-agent"
  else "General Lab Agent"

/-- The messages one question adds to the transcript, as the specification lists them. -/
def expectedTurn (toLowerCase : String → String) (question : String) : List ChatMessage :=
  let q := toLowerCase question
  [ { role := .user, text := some question },
    { role := .ai, text := some "Step 1: Analyzing your question…" },
    { role := .ai, text := some ("Step 2: Connecting to " ++ specSource q ++ "…") },
    { role := .ai, text := some "Step 3: Collecting response from dataset…" } ]
  ++ (if includes q "root cause" = true then
        [{ role := .ai,
           text := some "Step 4: Correlating metrics across Operations, Reagents, and Inventory…" }]
      else [])
  ++ [{ role := .ai, text := some ("Final Answer: " ++ generateResponse toLowerCase question) }]
  ++ (if includes q "chart" = true ∨ includes q "plot" = true ∨ includes q "visualize" = true
          ∨ includes q "graph" = true ∨ includes q "trend" = true then
        [{ role := .chart, chartType := (selectSource q).2 }]
      else [])

/-- The lower-cased question names a dataset for the sub-agent routing. -/
def namesDataset (q : String) : Bool :=
  includes q "glove" || includes q "stock" || includes q "reagent" || includes q "result"
    || includes q "test" || includes q "tat" || includes q "downtime"

/-- The dataset key of a question that names a dataset, as the amended claim
words it: inventory for glove or stock, else reagents for reagent, else results
for result, else operations. -/
def specKey (q : String) : String :=
  if includes q "glove" = true ∨ includes q "stock" = true then "inventory"
  else if includes q "reagent" = true then "reagents"
  else if includes q "result" = true then "results"
  else "operations"

/-- The variables that the callbacks of `handleAsk(question)` capture
(source lines 84–92). -/
def closureOf (toLowerCase : String → String) (question : String) : Closure :=
  { question := question
    q := toLowerCase question
    source := (selectSource (toLowerCase question)).1
    chartType := (selectSource (toLowerCase question)).2
    isRootCause := includes (toLowerCase question) "root cause" }

/-- Delay range of a pending timer: 1000–5000 ms for the chart message,
2000–5000 ms for every other callback. -/
def Timer.inRange (t : Timer) : Prop :=
  (if t.callback = .chartMessage then 1000 else 2000) ≤ t.delay ∧ t.delay ≤ 5000

instance (t : Timer) : Decidable t.inRange := by
  unfold Timer.inRange; infer_instance

/-! ## Lemmas on the responder -/

/-- The search `includes` is the substring relation on the character sequences. -/
theorem includes_iff (s searchString : String) :
    includes s searchString = true ↔ searchString.data <:+: s.data := by
  unfold includes
  generalize searchString.data = needle
  induction s.data with
  | nil => simp [occursIn, List.isEmpty_iff]
  | cons c cs ih =>
    simp only [occursIn, Bool.or_eq_true, ih, List.infix_cons_iff, List.isPrefixOf_iff_prefix]

theorem char_toLower_idem (c : Char) : c.toLower.toLower = c.toLower := by
  by_cases h : c.toNat ≥ 65 ∧ c.toNat ≤ 90
  · have hc : c = Char.ofNat c.toNat := (Char.ofNat_toNat c).symm
    obtain ⟨h1, h2⟩ := h
    generalize c.toNat = n at hc h1 h2
    subst hc
    interval_cases n <;> decide
  · have hfix : c.toLower = c := by
      unfold Char.toLower
      exact if_neg h
    rw [hfix, hfix]

/-- The ASCII lower-casing is idempotent. -/
theorem asciiLower_idem (s : String) : asciiLower (asciiLower s) = asciiLower s := by
  simp [asciiLower, Function.comp_def, char_toLower_idem]

theorem firstMatchIn_nil (q : String) : firstMatchIn q [] = fallbackAnswer := rfl

theorem firstMatchIn_cons (q : String) (r : Rule) (rs : List Rule) :
    firstMatchIn q (r :: rs) = if r.applies q then r.answer else firstMatchIn q rs := by
  unfold firstMatchIn
  rw [List.find?_cons]
  cases h : r.applies q <;> simp

theorem generateResponse_eq_firstMatch (toLowerCase : String → String) (question : String) :
    generateResponse toLowerCase question = firstMatch toLowerCase question := by
  simp only [firstMatch, rules, rootCauseRules, chartRules, reagentRules, operationsRules,
    resultsRules, inventoryRules, List.cons_append, List.nil_append, firstMatchIn_cons,
    firstMatchIn_nil, Rule.applies, List.all_cons, List.all_nil, Bool.and_true,
    generateResponse]

theorem firstMatchIn_of_first (q : String) (pre post : List Rule) (r : Rule)
    (hr : r.applies q = true) (hpre : ∀ p ∈ pre, p.applies q = false) :
    firstMatchIn q (pre ++ r :: post) = r.answer := by
  induction pre with
  | nil => simp [firstMatchIn_cons, hr]
  | cons p ps ih =>
    have hp : p.applies q = false := hpre p (List.mem_cons_self p ps)
    have hps : ∀ x ∈ ps, x.applies q = false := fun x hx => hpre x (List.mem_cons_of_mem p hx)
    simp [firstMatchIn_cons, hp, ih hps]

theorem firstMatchIn_eq_fallback (q : String) (rs : List Rule)
    (hne : ∀ r ∈ rs, r.answer ≠ fallbackAnswer) :
    firstMatchIn q rs = fallbackAnswer ↔ ∀ r ∈ rs, r.applies q = false := by
  induction rs with
  | nil => simp [firstMatchIn_nil]
  | cons r rs ih =>
    have hr : r.answer ≠ fallbackAnswer := hne r (List.mem_cons_self r rs)
    have hrs : ∀ x ∈ rs, x.answer ≠ fallbackAnswer :=
      fun x hx => hne x (List.mem_cons_of_mem r hx)
    rw [firstMatchIn_cons]
    cases h : r.applies q
    · simp [ih hrs, h]
    · simp [hr, h]

theorem answers_ne_fallback : ∀ r ∈ rules, r.answer ≠ fallbackAnswer := by decide

theorem generateResponse_of_fixed (toLowerCase : String → String) (p : String)
    (h : toLowerCase p = p) : generateResponse toLowerCase p = generateResponse id p := by
  simp only [generateResponse, h, id]

set_option maxRecDepth 100000 in
theorem generateResponse_phrases : ∀ r ∈ rules, generateResponse id r.phrase = r.answer := by
  decide

theorem asciiLower_phrases : ∀ r ∈ rules, asciiLower r.phrase = r.phrase := by decide

/-! ## Lemmas on the scripted turn -/

section TurnLemmas

variable {α : Type} [LinearOrderedField α] [FloorRing α]

theorem randomDelay_mem (random : α) (min max : Int) (h0 : 0 ≤ random) (h1 : random < 1)
    (hmm : min ≤ max) :
    min ≤ randomDelay random min max ∧ randomDelay random min max ≤ max := by
  have hn : (0 : α) < ((max - min + 1 : Int) : α) := by
    have : (0 : Int) < max - min + 1 := by omega
    exact_mod_cast this
  have hlo : 0 ≤ ⌊random * ((max - min + 1 : Int) : α)⌋ :=
    Int.floor_nonneg.mpr (mul_nonneg h0 hn.le)
  have hhi : ⌊random * ((max - min + 1 : Int) : α)⌋ < max - min + 1 := by
    rw [Int.floor_lt]
    calc random * ((max - min + 1 : Int) : α)
        < 1 * ((max - min + 1 : Int) : α) := mul_lt_mul_of_pos_right h1 hn
      _ = ((max - min + 1 : Int) : α) := one_mul _
  unfold randomDelay
  constructor <;> omega

theorem selectSource_fst (q : String) : (selectSource q).1 = specSource q := by
  unfold selectSource specSource
  simp only [Bool.or_eq_true, or_assoc]
  split_ifs <;> rfl

theorem drain_idle (toLowerCase : String → String) (rand : ℕ → α) (fuel : Nat) (s : State)
    (h : s.timers = []) : drain toLowerCase rand fuel s = s := by
  cases fuel with
  | zero => rfl
  | succ n => simp [drain, h]

theorem chartRequested_iff (q : String) :
    chartRequested q = true ↔
      (includes q "chart" = true ∨ includes q "plot" = true ∨ includes q "visualize" = true
        ∨ includes q "graph" = true ∨ includes q "trend" = true) := by
  simp only [chartRequested, Bool.or_eq_true, or_assoc]

/-- Transcript and pending timers after a question asked on an idle state has had
`fuel` of its timers fired. -/
theorem drain_handleAsk (toLowerCase : String → String) (rand : ℕ → α) (s : State)
    (question : String) (hq : question ≠ "") (hs : s.timers = []) (fuel : Nat) :
    (drain toLowerCase rand fuel (handleAsk toLowerCase rand s question)).chat
        = s.chat ++ (expectedTurn toLowerCase question).take (fuel + 1)
      ∧ (6 ≤ fuel →
          (drain toLowerCase rand fuel (handleAsk toLowerCase rand s question)).timers = []) := by
  have hsrc := selectSource_fst (toLowerCase question)
  have hch := chartRequested_iff (toLowerCase question)
  by_cases hrc : includes (toLowerCase question) "root cause" = true <;>
  by_cases hc : chartRequested (toLowerCase question) = true <;>
  rcases fuel with _ | _ | _ | _ | _ | _ | _ | n <;>
  simp [drain, drain_idle, step, handleAsk, runCallback, State.setTimeout, State.setChat, hq, hs,
    hrc, hc, ← hch, expectedTurn, ← hsrc]

theorem setChat_chat (s : State) (m : ChatMessage) : (s.setChat m).chat = s.chat ++ [m] := rfl

theorem setChat_timers (s : State) (m : ChatMessage) : (s.setChat m).timers = s.timers := rfl

theorem setTimeout_chat (rand : ℕ → α) (s : State) (cb : Callback) (env : Closure)
    (min max : Int) : (s.setTimeout rand cb env min max).chat = s.chat := rfl

theorem setTimeout_timers (rand : ℕ → α) (s : State) (cb : Callback) (env : Closure)
    (min max : Int) :
    (s.setTimeout rand cb env min max).timers
      = s.timers ++ [{ delay := randomDelay (rand s.draws) min max, callback := cb, env }] := rfl

/-- Every timer callback appends exactly one message. -/
theorem runCallback_chat (toLowerCase : String → String) (rand : ℕ → α) (s : State) (t : Timer) :
    ∃ m, (runCallback toLowerCase rand s t).chat = s.chat ++ [m] := by
  unfold runCallback
  split
  · exact ⟨_, rfl⟩
  · exact ⟨_, rfl⟩
  · split <;> exact ⟨_, rfl⟩
  · exact ⟨_, rfl⟩
  · split <;> exact ⟨_, rfl⟩
  · exact ⟨_, rfl⟩

/-- A non-empty question appends the user message and nothing else. -/
theorem handleAsk_chat (toLowerCase : String → String) (rand : ℕ → α) (s : State)
    (question : String) (hq : question ≠ "") :
    (handleAsk toLowerCase rand s question).chat
      = s.chat ++ [{ role := .user, text := some question }] := by
  simp [handleAsk, hq, State.setTimeout, State.setChat]

theorem handleAsk_empty (toLowerCase : String → String) (rand : ℕ → α) (s : State) :
    handleAsk toLowerCase rand s "" = s := by
  simp [handleAsk]

/-- Every event other than Clear Chat keeps the transcript or appends one message. -/
theorem step_chat (toLowerCase : String → String) (rand : ℕ → α) (s : State) (e : Event)
    (he : e ≠ .clear) :
    (step toLowerCase rand s e).chat = s.chat
      ∨ ∃ m, (step toLowerCase rand s e).chat = s.chat ++ [m] := by
  cases e with
  | type text => exact Or.inl rfl
  | send =>
    by_cases hq : s.input = ""
    · left; simp [step, hq, handleAsk_empty]
    · right; exact ⟨_, handleAsk_chat toLowerCase rand s s.input hq⟩
  | clear => exact absurd rfl he
  | loaded d => exact Or.inl rfl
  | timeout i =>
    simp only [step]
    cases h : s.timers.get? i with
    | none => exact Or.inl rfl
    | some t =>
      right
      exact runCallback_chat toLowerCase rand { s with timers := s.timers.eraseIdx i } t

theorem step_chat_extends (toLowerCase : String → String) (rand : ℕ → α) (s : State) (e : Event)
    (he : e ≠ .clear) : s.chat <+: (step toLowerCase rand s e).chat := by
  rcases step_chat toLowerCase rand s e he with h | ⟨m, h⟩
  · rw [h]
  · rw [h]; exact List.prefix_append _ _

theorem run_chat_extends (toLowerCase : String → String) (rand : ℕ → α) (events : List Event) :
    ∀ s : State, Event.clear ∉ events → s.chat <+: (run toLowerCase rand s events).chat := by
  induction events with
  | nil => intro s _; exact List.prefix_refl _
  | cons e es ih =>
    intro s h
    have he : e ≠ .clear := fun hc => h (hc ▸ List.mem_cons_self _ _)
    have hes : Event.clear ∉ es := fun hc => h (List.mem_cons_of_mem _ hc)
    exact (step_chat_extends toLowerCase rand s e he).trans (ih _ hes)

/-- A timer that `setTimeout` adds with bounds inside the range of its callback
keeps all pending timers in range. -/
theorem setTimeout_inRange (rand : ℕ → α) (hrand : ∀ n, 0 ≤ rand n ∧ rand n < 1) (s : State)
    (cb : Callback) (env : Closure) (min max : Int) (hmm : min ≤ max) (hmax : max ≤ 5000)
    (hmin : (if cb = .chartMessage then 1000 else 2000) ≤ min)
    (hs : ∀ t ∈ s.timers, t.inRange) :
    ∀ t ∈ (s.setTimeout rand cb env min max).timers, t.inRange := by
  intro t ht
  rw [setTimeout_timers, List.mem_append, List.mem_singleton] at ht
  rcases ht with ht | rfl
  · exact hs t ht
  · have hb := randomDelay_mem (rand s.draws) min max (hrand _).1 (hrand _).2 hmm
    exact ⟨hmin.trans hb.1, hb.2.trans hmax⟩

theorem runCallback_inRange (toLowerCase : String → String) (rand : ℕ → α)
    (hrand : ∀ n, 0 ≤ rand n ∧ rand n < 1) (s : State) (t : Timer)
    (hs : ∀ x ∈ s.timers, x.inRange) :
    ∀ x ∈ (runCallback toLowerCase rand s t).timers, x.inRange := by
  unfold runCallback
  split
  · exact setTimeout_inRange rand hrand _ _ _ _ _ (by decide) (by decide) (by decide) hs
  · exact setTimeout_inRange rand hrand _ _ _ _ _ (by decide) (by decide) (by decide) hs
  · split
    · exact setTimeout_inRange rand hrand _ _ _ _ _ (by decide) (by decide) (by decide) hs
    · exact setTimeout_inRange rand hrand _ _ _ _ _ (by decide) (by decide) (by decide) hs
  · exact setTimeout_inRange rand hrand _ _ _ _ _ (by decide) (by decide) (by decide) hs
  · split
    · exact setTimeout_inRange rand hrand _ _ _ _ _ (by decide) (by decide) (by decide) hs
    · exact hs
  · exact hs

theorem step_inRange (toLowerCase : String → String) (rand : ℕ → α)
    (hrand : ∀ n, 0 ≤ rand n ∧ rand n < 1) (s : State) (e : Event)
    (hs : ∀ x ∈ s.timers, x.inRange) :
    ∀ x ∈ (step toLowerCase rand s e).timers, x.inRange := by
  cases e with
  | type text => exact hs
  | send =>
    simp only [step, handleAsk]
    split
    · exact hs
    · exact setTimeout_inRange rand hrand _ _ _ _ _ (by decide) (by decide) (by decide) hs
  | clear => exact hs
  | loaded d => exact hs
  | timeout i =>
    simp only [step]
    cases h : s.timers.get? i with
    | none => exact hs
    | some t =>
      apply runCallback_inRange toLowerCase rand hrand
      intro x hx
      exact hs x (List.mem_of_mem_eraseIdx hx)

theorem run_inRange (toLowerCase : String → String) (rand : ℕ → α)
    (hrand : ∀ n, 0 ≤ rand n ∧ rand n < 1) (events : List Event) :
    ∀ s : State, (∀ x ∈ s.timers, x.inRange) →
      ∀ x ∈ (run toLowerCase rand s events).timers, x.inRange := by
  induction events with
  | nil => intro s hs; exact hs
  | cons e es ih =>
    intro s hs
    exact ih _ (step_inRange toLowerCase rand hrand s e hs)

theorem expectedTurn_length_le (toLowerCase : String → String) (question : String) :
    (expectedTurn toLowerCase question).length ≤ 7 := by
  simp only [expectedTurn]
  split_ifs <;> simp

/-- The only chart message of a turn carries the `chartType` of the routing. -/
theorem expectedTurn_chart (toLowerCase : String → String) (question : String) (m : ChatMessage)
    (hm : m ∈ expectedTurn toLowerCase question) (hrole : m.role = .chart) :
    m.chartType = (selectSource (toLowerCase question)).2 := by
  simp only [expectedTurn, List.mem_append, List.mem_cons, List.mem_singleton, List.not_mem_nil,
    or_false] at hm
  rcases hm with ((((h | h | h | h) | h) | h) | h)
  · subst h; cases hrole
  · subst h; cases hrole
  · subst h; cases hrole
  · subst h; cases hrole
  · split_ifs at h
    · rw [List.mem_singleton] at h; subst h; cases hrole
    · cases h
  · subst h; cases hrole
  · split_ifs at h
    · rw [List.mem_singleton] at h; subst h; rfl
    · cases h

/-- A question that names a dataset is routed to one of the four dataset keys. -/
theorem selectSource_key (q : String) (h : namesDataset q = true) :
    ∃ key ∈ datasetKeys, (selectSource q).2 = some key := by
  unfold namesDataset at h
  simp only [Bool.or_eq_true] at h
  unfold selectSource
  simp only [Bool.or_eq_true]
  split_ifs with h1 h2 h3 h4
  · exact ⟨"inventory", by decide, rfl⟩
  · exact ⟨"reagents", by decide, rfl⟩
  · exact ⟨"results", by decide, rfl⟩
  · exact ⟨"operations", by decide, rfl⟩
  · exfalso
    rcases h with (((((h | h) | h) | h) | h) | h) | h
    · exact h1 (Or.inl h)
    · exact h1 (Or.inr h)
    · exact h2 h
    · exact h3 h
    · exact h4 (Or.inl (Or.inl h))
    · exact h4 (Or.inl (Or.inr h))
    · exact h4 (Or.inr h)

/-- A question that names a dataset is routed to the key the priority order gives. -/
theorem selectSource_specKey (q : String) (h : namesDataset q = true) :
    (selectSource q).2 = some (specKey q) ∧ specKey q ∈ datasetKeys := by
  unfold namesDataset at h
  simp only [Bool.or_eq_true] at h
  unfold selectSource specKey
  simp only [Bool.or_eq_true]
  split_ifs with h1 h2 h3 h4
  · exact ⟨rfl, by decide⟩
  · exact ⟨rfl, by decide⟩
  · exact ⟨rfl, by decide⟩
  · exact ⟨rfl, by decide⟩
  · exfalso
    rcases h with (((((h | h) | h) | h) | h) | h) | h
    · exact h1 (Or.inl h)
    · exact h1 (Or.inr h)
    · exact h2 h
    · exact h3 h
    · exact h4 (Or.inl (Or.inl h))
    · exact h4 (Or.inl (Or.inr h))
    · exact h4 (Or.inr h)

/-- The timer that `handleAsk` schedules is Step 1 with the closure of its question. -/
theorem handleAsk_timers (toLowerCase : String → String) (rand : ℕ → α) (s : State)
    (question : String) (hq : question ≠ "") :
    (handleAsk toLowerCase rand s question).timers
      = s.timers ++ [{ delay := randomDelay (rand s.draws) 2000 4000, callback := .step1,
                       env := closureOf toLowerCase question }] := by
  simp [handleAsk, hq, State.setTimeout, State.setChat, closureOf]

/-- A callback hands its closure on unchanged to the timer it schedules. -/
theorem runCallback_env (toLowerCase : String → String) (rand : ℕ → α) (s : State) (t : Timer) :
    ∀ x ∈ (runCallback toLowerCase rand s t).timers, x ∈ s.timers ∨ x.env = t.env := by
  have key : ∀ (s2 : State) (cb : Callback) (min max : Int), s2.timers = s.timers →
      ∀ x ∈ (s2.setTimeout rand cb t.env min max).timers, x ∈ s.timers ∨ x.env = t.env := by
    intro s2 cb min max hs2 x hx
    rw [setTimeout_timers, List.mem_append, List.mem_singleton, hs2] at hx
    rcases hx with hx | rfl
    · exact Or.inl hx
    · exact Or.inr rfl
  unfold runCallback
  split
  · exact key _ _ _ _ rfl
  · exact key _ _ _ _ rfl
  · split
    · exact key _ _ _ _ rfl
    · exact key _ _ _ _ rfl
  · exact key _ _ _ _ rfl
  · split
    · exact key _ _ _ _ rfl
    · intro x hx; exact Or.inl hx
  · intro x hx; exact Or.inl hx

/-- Only the chart callback appends a message of role chart, and that message
carries the `chartType` of the callback's closure. -/
theorem runCallback_chart (toLowerCase : String → String) (rand : ℕ → α) (s : State) (t : Timer)
    (m : ChatMessage) (hm : (runCallback toLowerCase rand s t).chat = s.chat ++ [m])
    (hrole : m.role = .chart) :
    t.callback = .chartMessage ∧ m.chartType = t.env.chartType := by
  have single : ∀ m2 : ChatMessage, s.chat ++ [m2] = s.chat ++ [m] → m2 = m := by
    intro m2 h
    have := List.append_cancel_left h
    simpa using this
  unfold runCallback at hm
  split at hm
  · have h := single _ hm; subst h; cases hrole
  · have h := single _ hm; subst h; cases hrole
  · split at hm
    · have h := single _ hm; subst h; cases hrole
    · have h := single _ hm; subst h; cases hrole
  · have h := single _ hm; subst h; cases hrole
  · split at hm
    · have h := single _ hm; subst h; cases hrole
    · have h := single _ hm; subst h; cases hrole
  · rename_i hcb
    have h := single _ hm
    subst h
    exact ⟨hcb, rfl⟩

/-- A message of role chart enters the transcript only when a pending chart
callback fires. -/
theorem step_chart (toLowerCase : String → String) (rand : ℕ → α) (s : State) (e : Event)
    (m : ChatMessage) (hm : (step toLowerCase rand s e).chat = s.chat ++ [m])
    (hrole : m.role = .chart) :
    ∃ i t, e = .timeout i ∧ s.timers.get? i = some t ∧ t.callback = .chartMessage
      ∧ m.chartType = t.env.chartType := by
  have noself : s.chat ≠ s.chat ++ [m] := by
    intro h
    have := congrArg List.length h
    simp at this
  cases e with
  | type text => exact absurd hm noself
  | loaded d => exact absurd hm noself
  | clear =>
    exfalso
    have hlen := congrArg List.length hm
    simp only [step, handleClear, List.length_singleton, List.length_append] at hlen
    have hnil : s.chat = [] := List.length_eq_zero.mp (by omega)
    simp only [step, handleClear, hnil, List.nil_append] at hm
    have hg : greeting = m := by simpa using hm
    subst hg
    cases hrole
  | send =>
    exfalso
    by_cases hq : s.input = ""
    · simp only [step, hq, handleAsk_empty] at hm
      exact noself hm
    · simp only [step] at hm
      rw [handleAsk_chat toLowerCase rand s s.input hq] at hm
      have h := List.append_cancel_left hm
      have hu : ({ role := .user, text := some s.input } : ChatMessage) = m := by simpa using h
      subst hu
      cases hrole
  | timeout i =>
    simp only [step] at hm
    cases h : s.timers.get? i with
    | none =>
      rw [h] at hm
      exact absurd hm noself
    | some t =>
      rw [h] at hm
      have hc := runCallback_chart toLowerCase rand { s with timers := s.timers.eraseIdx i } t m
        hm hrole
      exact ⟨i, t, rfl, h, hc.1, hc.2⟩

/-- In any interleaving every pending timer carries the closure of the question
it was scheduled for. -/
theorem run_closure (toLowerCase : String → String) (rand : ℕ → α) (events : List Event) :
    ∀ s : State, (∀ x ∈ s.timers, x.env = closureOf toLowerCase x.env.question) →
      ∀ x ∈ (run toLowerCase rand s events).timers,
        x.env = closureOf toLowerCase x.env.question := by
  induction events with
  | nil => intro s hs; exact hs
  | cons e es ih =>
    intro s hs
    apply ih
    cases e with
    | type text => exact hs
    | loaded d => exact hs
    | clear => exact hs
    | send =>
      by_cases hq : s.input = ""
      · simp only [step, hq, handleAsk_empty]
        exact hs
      · intro x hx
        simp only [step] at hx
        rw [handleAsk_timers toLowerCase rand s s.input hq, List.mem_append,
          List.mem_singleton] at hx
        rcases hx with hx | rfl
        · exact hs x hx
        · rfl
    | timeout i =>
      simp only [step]
      cases h : s.timers.get? i with
      | none => exact hs
      | some t =>
        intro x hx
        rcases runCallback_env toLowerCase rand { s with timers := s.timers.eraseIdx i } t x hx
          with hx | hx
        · exact hs x (List.mem_of_mem_eraseIdx hx)
        · have ht := hs t (List.get?_mem h)
          rw [hx]
          exact ht

end TurnLemmas

/-! ## Lemmas on chart rendering -/

theorem renderCharts_length (datasets : DatasetBundle) (msg : ChatMessage) :
    (renderCharts datasets msg).length ≤ 1 := by
  unfold renderCharts
  rcases hct : msg.chartType with _ | k
  · simp
  · by_cases h1 : k = "reagents"
    · subst h1; split_ifs <;> simp_all
    · by_cases h2 : k = "operations"
      · subst h2; split_ifs <;> simp_all
      · by_cases h3 : k = "results"
        · subst h3; split_ifs <;> simp_all
        · split_ifs <;> simp_all

theorem renderCharts_ne_nil_iff (datasets : DatasetBundle) (msg : ChatMessage) :
    renderCharts datasets msg ≠ [] ↔
      ∃ key ∈ datasetKeys, msg.chartType = some key ∧ datasets.get key ≠ [] := by
  unfold renderCharts
  rcases hct : msg.chartType with _ | k
  · simp
  · by_cases h1 : k = "reagents"
    · subst h1
      simp [datasetKeys, DatasetBundle.get, List.length_pos]
    · by_cases h2 : k = "operations"
      · subst h2
        simp [datasetKeys, DatasetBundle.get, List.length_pos]
      · by_cases h3 : k = "results"
        · subst h3
          simp [datasetKeys, DatasetBundle.get, List.length_pos]
        · by_cases h4 : k = "inventory"
          · subst h4
            simp [datasetKeys, DatasetBundle.get, List.length_pos]
          · simp [datasetKeys, DatasetBundle.get, h1, h2, h3, h4]

/-! ## Main results -/

/-- C1: `generateResponse` returns the answer of the first rule, in the source
order of its twenty rules (3 root-cause, 4 chart, 3 reagent, 4 operations,
3 results, 3 inventory), all of whose keywords occur in the lower-cased question:
it equals the find-first reference `firstMatch`, and a rule that applies while no
rule before it does decides the result whatever rules follow it. -/
theorem generateResponse_first_rule_wins (toLowerCase : String → String) (question : String) :
    generateResponse toLowerCase question = firstMatch toLowerCase question
    ∧ (∀ (pre post : List Rule) (r : Rule), rules = pre ++ r :: post →
        r.applies (toLowerCase question) = true →
        (∀ p ∈ pre, p.applies (toLowerCase question) = false) →
        generateResponse toLowerCase question = r.answer)
    ∧ rules = rootCauseRules ++ chartRules ++ reagentRules ++ operationsRules ++ resultsRules
        ++ inventoryRules
    ∧ [rootCauseRules, chartRules, reagentRules, operationsRules, resultsRules,
        inventoryRules].map List.length = [3, 4, 3, 4, 3, 3]
    ∧ rules.length = 20 := by
  refine ⟨generateResponse_eq_firstMatch toLowerCase question, ?_, rfl, rfl, rfl⟩
  intro pre post r hsplit hr hpre
  rw [generateResponse_eq_firstMatch, firstMatch, hsplit]
  exact firstMatchIn_of_first _ pre post r hr hpre

/-- C2: `generateResponse` returns the fallback string exactly when no rule
applies to the lower-cased question. -/
theorem generateResponse_fallback_iff (toLowerCase : String → String) (question : String) :
    generateResponse toLowerCase question = fallbackAnswer
      ↔ ∀ r ∈ rules, r.applies (toLowerCase question) = false := by
  rw [generateResponse_eq_firstMatch, firstMatch]
  exact firstMatchIn_eq_fallback _ rules answers_ne_fallback

/-- C3: for each of the twenty rules, the question made of the rule's keyword
phrase alone (its keywords joined by one space), which lower-casing leaves as it
is, yields exactly that rule's answer: no rule is shadowed by a rule above it and
none falls through to the fallback. -/
theorem generateResponse_keyword_phrase (toLowerCase : String → String) (r : Rule)
    (hr : r ∈ rules) (hlow : toLowerCase r.phrase = r.phrase) :
    generateResponse toLowerCase r.phrase = r.answer ∧ r.answer ≠ fallbackAnswer := by
  rw [generateResponse_of_fixed toLowerCase r.phrase hlow]
  exact ⟨generateResponse_phrases r hr, answers_ne_fallback r hr⟩

/-- Witness for C3: all twenty phrases under the ASCII lower-casing, and the
phrase of the fifth rule written out. -/
theorem generateResponse_keyword_phrase_witness :
    rules.all (fun r => decide (generateResponse asciiLower r.phrase = r.answer)) = true
    ∧ generateResponse asciiLower "tests chart"
        = "Here’s the daily test trend for the last 7 days. See chart below." :=
  ⟨List.all_eq_true.mpr fun r hr =>
      decide_eq_true (generateResponse_keyword_phrase asciiLower r hr (asciiLower_phrases r hr)).1,
    (generateResponse_keyword_phrase asciiLower
      ⟨["tests", "chart"], "Here’s the daily test trend for the last 7 days. See chart below."⟩
      (by decide) (by decide)).1⟩

/-- C4: `handleClear` sets the transcript to the one-element list holding the
greeting, which is the initial transcript, empties the input text, leaves the
four datasets unchanged, and is idempotent. -/
theorem handleClear_resets (s : State) :
    (handleClear s).chat
        = [{ role := .ai, text := some "Hello! I’m your Lab AI Agent. How can I help you today?" }]
    ∧ (handleClear s).chat = initialState.chat
    ∧ (handleClear s).input = ""
    ∧ (handleClear s).datasets = s.datasets
    ∧ handleClear (handleClear s) = handleClear s :=
  ⟨rfl, rfl, rfl, rfl, rfl⟩

/-- C5: a chart message renders to a chart container that holds a chart exactly
when its `chartType` is one of the four dataset keys and the dataset under that
key is non-empty; with that dataset empty it holds none, and it never holds more
than one. -/
theorem chart_rendered_iff (datasets : DatasetBundle) (msg : ChatMessage)
    (hrole : msg.role = .chart) :
    renderMessage datasets msg = .chartContainer (renderCharts datasets msg)
    ∧ ((renderMessage datasets msg).charts ≠ [] ↔
        ∃ key ∈ datasetKeys, msg.chartType = some key ∧ datasets.get key ≠ [])
    ∧ (∀ key ∈ datasetKeys, msg.chartType = some key → datasets.get key = [] →
        (renderMessage datasets msg).charts = [])
    ∧ (renderMessage datasets msg).charts.length ≤ 1 := by
  have hr : renderMessage datasets msg = .chartContainer (renderCharts datasets msg) := by
    simp [renderMessage, hrole]
  have hiff := renderCharts_ne_nil_iff datasets msg
  refine ⟨hr, ?_, ?_, ?_⟩
  · rw [hr]; exact hiff
  · intro key _ hk hempty
    rw [hr]
    by_contra hne
    obtain ⟨key2, _, hk2, hne2⟩ := hiff.mp hne
    rw [hk] at hk2
    cases hk2
    exact hne2 hempty
  · rw [hr]; exact renderCharts_length datasets msg

/-- Witness for C5: an inventory chart message over one loaded inventory record. -/
theorem chart_rendered_iff_witness :
    renderMessage
        { reagents := [], operations := [], results := [],
          inventory := [[("item", .str "Gloves"), ("stock", .num 40), ("threshold", .num 100)]] }
        { role := .chart, chartType := some "inventory" }
      = .chartContainer
          [.bar [[("item", .str "Gloves"), ("stock", .num 40), ("threshold", .num 100)]] "item"
            [("stock", "Stock"), ("threshold", "Threshold")]] :=
  Eq.trans
    (chart_rendered_iff
      { reagents := [], operations := [], results := [],
        inventory := [[("item", .str "Gloves"), ("stock", .num 40), ("threshold", .num 100)]] }
      { role := .chart, chartType := some "inventory" } rfl).1
    (by decide)

section TurnResults

variable {α : Type} [LinearOrderedField α] [FloorRing α]

set_option maxRecDepth 100000 in
/-- C6, as stated, fails: the question "show me a chart" asked alone on the initial
state ends with a chart message whose `chartType` is `null`, so not every chart
message carries one of the four dataset keys. -/
theorem chart_message_without_dataset_key :
    (drain asciiLower (fun _ => (0 : ℚ)) 6
        (handleAsk asciiLower (fun _ => (0 : ℚ)) initialState "show me a chart")).chat
      = [ greeting,
          { role := .user, text := some "show me a chart" },
          { role := .ai, text := some "Step 1: Analyzing your question…" },
          { role := .ai, text := some "Step 2: Connecting to General Lab Agent…" },
          { role := .ai, text := some "Step 3: Collecting response from dataset…" },
          { role := .ai, text := some ("Final Answer: " ++ fallbackAnswer) },
          { role := .chart, chartType := none } ]
    ∧ ¬ (∀ m ∈ (drain asciiLower (fun _ => (0 : ℚ)) 6
            (handleAsk asciiLower (fun _ => (0 : ℚ)) initialState "show me a chart")).chat,
          m.role = .chart → ∃ key ∈ datasetKeys, m.chartType = some key) := by
  have hchat := (drain_handleAsk asciiLower (fun _ => (0 : ℚ)) initialState "show me a chart"
    (by decide) rfl 6).1
  have hval : initialState.chat ++ (expectedTurn asciiLower "show me a chart").take (6 + 1)
      = [ greeting,
          { role := .user, text := some "show me a chart" },
          { role := .ai, text := some "Step 1: Analyzing your question…" },
          { role := .ai, text := some "Step 2: Connecting to General Lab Agent…" },
          { role := .ai, text := some "Step 3: Collecting response from dataset…" },
          { role := .ai, text := some ("Final Answer: " ++ fallbackAnswer) },
          { role := .chart, chartType := none } ] := by decide
  rw [hchat, hval]
  refine ⟨rfl, fun hall => ?_⟩
  obtain ⟨key, _, hkey⟩ := hall { role := .chart, chartType := none } (by simp) rfl
  cases hkey

/-- C6, amended: a message of role chart enters the transcript only when a chart
callback fires, and it carries the `chartType` that the routing gave the question
of that callback, in any interleaving of questions, timers and other events; when
the lower-cased question contains glove, stock, reagent, result, test, tat or
downtime that `chartType` is one of the four dataset keys: inventory for glove or
stock, else reagents for reagent, else results for result, else operations. -/
theorem chart_message_carries_routed_key (toLowerCase : String → String) (rand : ℕ → α) :
    (∀ q : String, namesDataset q = true →
        (selectSource q).2 = some (specKey q) ∧ specKey q ∈ datasetKeys)
    ∧ (∀ (s : State) (question : String), question ≠ "" →
        ∃ d, (handleAsk toLowerCase rand s question).timers
          = s.timers ++ [{ delay := d, callback := .step1,
                           env := closureOf toLowerCase question }])
    ∧ (∀ (s : State) (t : Timer), ∀ x ∈ (runCallback toLowerCase rand s t).timers,
        x ∈ s.timers ∨ x.env = t.env)
    ∧ (∀ (events : List Event) (e : Event) (m : ChatMessage),
        (step toLowerCase rand (run toLowerCase rand initialState events) e).chat
            = (run toLowerCase rand initialState events).chat ++ [m] →
        m.role = .chart →
        ∃ i t, e = .timeout i
          ∧ (run toLowerCase rand initialState events).timers.get? i = some t
          ∧ t.callback = .chartMessage
          ∧ t.env = closureOf toLowerCase t.env.question
          ∧ m.chartType = (selectSource (toLowerCase t.env.question)).2
          ∧ (namesDataset (toLowerCase t.env.question) = true →
              m.chartType = some (specKey (toLowerCase t.env.question))
                ∧ specKey (toLowerCase t.env.question) ∈ datasetKeys)) := by
  refine ⟨selectSource_specKey, ?_, runCallback_env toLowerCase rand, ?_⟩
  · intro s question hq
    exact ⟨_, handleAsk_timers toLowerCase rand s question hq⟩
  · intro events e m hm hrole
    obtain ⟨i, t, he, hget, hcb, hct⟩ := step_chart toLowerCase rand _ e m hm hrole
    have henv : t.env = closureOf toLowerCase t.env.question :=
      run_closure toLowerCase rand events initialState (by intro x hx; cases hx) t
        (List.get?_mem hget)
    have hsel : m.chartType = (selectSource (toLowerCase t.env.question)).2 := by
      rw [hct, henv]
      rfl
    refine ⟨i, t, he, hget, hcb, henv, hsel, ?_⟩
    intro hnamed
    have hkey := selectSource_specKey (toLowerCase t.env.question) hnamed
    exact ⟨hsel.trans hkey.1, hkey.2⟩

set_option maxRecDepth 100000 in
/-- Witness for C6 amended: "Tests CHART" is routed to operations and
"glove stock results" to inventory, and the chart message of "reagent chart",
asked on the initial state, carries the key reagents. -/
theorem chart_message_carries_routed_key_witness :
    ((selectSource (asciiLower "Tests CHART")).2 = some "operations"
      ∧ (selectSource (asciiLower "glove stock results")).2 = some "inventory")
    ∧ (run asciiLower (fun _ => (0 : ℚ)) initialState
        [.type "reagent chart", .send, .timeout 0, .timeout 0, .timeout 0, .timeout 0,
          .timeout 0]).chat.getLast?
        = some { role := .chart, chartType := some "reagents" } :=
  ⟨⟨(((chart_message_carries_routed_key asciiLower (fun _ => (0 : ℚ))).1
        (asciiLower "Tests CHART") (by decide)).1).trans (by decide),
    (((chart_message_carries_routed_key asciiLower (fun _ => (0 : ℚ))).1
        (asciiLower "glove stock results") (by decide)).1).trans (by decide)⟩,
    by decide⟩

/-- C7: a non-empty question asked alone on a transcript `T` (no timer pending,
and its timers fired until none is left) ends with `T` followed by the user
message, Step 1, Step 2 naming the routed source, Step 3, the Step 4 message iff
the lower-cased question contains "root cause", the final answer of
`generateResponse`, and one chart message iff the lower-cased question contains
chart, plot, visualize, graph or trend; no timer is left, and the transcript is
the same for any two random oracles. -/
theorem question_asked_alone (toLowerCase : String → String) (rand rand2 : ℕ → α) (s : State)
    (question : String) (hq : question ≠ "") (hs : s.timers = []) (fuel : Nat)
    (hfuel : 6 ≤ fuel) :
    (drain toLowerCase rand fuel (handleAsk toLowerCase rand s question)).chat
        = s.chat ++ expectedTurn toLowerCase question
    ∧ (drain toLowerCase rand fuel (handleAsk toLowerCase rand s question)).timers = []
    ∧ (drain toLowerCase rand2 fuel (handleAsk toLowerCase rand2 s question)).chat
        = (drain toLowerCase rand fuel (handleAsk toLowerCase rand s question)).chat := by
  have hlen := expectedTurn_length_le toLowerCase question
  have htake : (expectedTurn toLowerCase question).take (fuel + 1)
      = expectedTurn toLowerCase question := List.take_of_length_le (by omega)
  have h1 := drain_handleAsk toLowerCase rand s question hq hs fuel
  have h2 := drain_handleAsk toLowerCase rand2 s question hq hs fuel
  rw [htake] at h1 h2
  exact ⟨h1.1, h1.2 hfuel, h2.1.trans h1.1.symm⟩

set_option maxRecDepth 100000 in
/-- Witness for C7: a root-cause question that also asks for a trend, on the
initial state, with every random draw equal to one half. -/
theorem question_asked_alone_witness :
    (drain asciiLower (fun _ => (1 / 2 : ℚ)) 6
        (handleAsk asciiLower (fun _ => (1 / 2 : ℚ)) initialState
          "Root cause of the turnaround trend?")).chat
      = [ greeting,
          { role := .user, text := some "Root cause of the turnaround trend?" },
          { role := .ai, text := some "Step 1: Analyzing your question…" },
          { role := .ai, text := some "Step 2: Connecting to General Lab Agent…" },
          { role := .ai, text := some "Step 3: Collecting response from dataset…" },
          { role := .ai,
            text := some "Step 4: Correlating metrics across Operations, Reagents, and Inventory…" },
          { role := .ai,
            text := some "Final Answer: Root cause of delayed turnaround times: (1) Reagent B near expiry causing reruns, (2) Analyzer downtime of 1.5 hours, (3) Increased test load (20% higher than average)." },
          { role := .chart, chartType := none } ] :=
  (question_asked_alone asciiLower (fun _ => (1 / 2 : ℚ)) (fun _ => (0 : ℚ)) initialState
    "Root cause of the turnaround trend?" (by decide) rfl 6 (le_refl 6)).1.trans (by decide)

/-- C8: the transcript is append-only except for a full reset.  `handleAsk` on a
non-empty question and every timer callback map the transcript to itself
followed by exactly one message; every event other than Clear Chat, and every
sequence of such events in any interleaving, keeps the earlier transcript as a
leading part of the later one; only Clear Chat can break that, and it does;
`handleAsk` on the empty question changes nothing and schedules no callback. -/
theorem transcript_append_only (toLowerCase : String → String) (rand : ℕ → α) :
    (∀ (s : State) (question : String), question ≠ "" →
        (handleAsk toLowerCase rand s question).chat
          = s.chat ++ [{ role := .user, text := some question }])
    ∧ (∀ (s : State) (t : Timer), ∃ m, (runCallback toLowerCase rand s t).chat = s.chat ++ [m])
    ∧ (∀ (s : State) (e : Event), e ≠ .clear →
        (step toLowerCase rand s e).chat = s.chat
          ∨ ∃ m, (step toLowerCase rand s e).chat = s.chat ++ [m])
    ∧ (∀ (s : State) (events : List Event), Event.clear ∉ events →
        s.chat <+: (run toLowerCase rand s events).chat)
    ∧ (∀ (s : State) (e : Event), ¬ s.chat <+: (step toLowerCase rand s e).chat → e = .clear)
    ∧ (∃ s : State, ¬ s.chat <+: (step toLowerCase rand s .clear).chat)
    ∧ (∀ s : State, handleAsk toLowerCase rand s "" = s) := by
  refine ⟨handleAsk_chat toLowerCase rand, runCallback_chat toLowerCase rand,
    step_chat toLowerCase rand, fun s events h => run_chat_extends toLowerCase rand events s h,
    ?_, ?_, handleAsk_empty toLowerCase rand⟩
  · intro s e hnot
    by_contra he
    exact hnot (step_chat_extends toLowerCase rand s e he)
  · refine ⟨{ initialState with chat := [greeting, { role := .user, text := some "hi" }] }, ?_⟩
    intro h
    have hlen := h.length_le
    simp [step, handleClear] at hlen

/-- C9: `generateResponse`, and the source and `chartType` that `handleAsk`
selects, depend only on the lower-cased question: two questions with the same
lower-case form get the same answer and the same routing, and a question whose
lower-case form is a fixed point of lower-casing gets the answer and routing of
that lower-case form. -/
theorem response_depends_on_lowercase (toLowerCase : String → String) (rand : ℕ → α)
    (a b : String) (h : toLowerCase a = toLowerCase b) :
    generateResponse toLowerCase a = generateResponse toLowerCase b
    ∧ selectSource (toLowerCase a) = selectSource (toLowerCase b)
    ∧ (∀ s : State, a ≠ "" → b ≠ "" →
        (handleAsk toLowerCase rand s a).timers.map (fun t => (t.env.source, t.env.chartType))
          = (handleAsk toLowerCase rand s b).timers.map
              (fun t => (t.env.source, t.env.chartType)))
    ∧ (toLowerCase (toLowerCase a) = toLowerCase a →
        generateResponse toLowerCase a = generateResponse toLowerCase (toLowerCase a)
          ∧ selectSource (toLowerCase a) = selectSource (toLowerCase (toLowerCase a))) := by
  refine ⟨?_, ?_, ?_, ?_⟩
  · simp only [generateResponse, h]
  · rw [h]
  · intro s ha hb
    simp [handleAsk, ha, hb, State.setTimeout, State.setChat, h]
  · intro hidem
    constructor
    · simp only [generateResponse, hidem]
    · rw [hidem]

set_option maxRecDepth 100000 in
/-- Witness for C9: two spellings of one question, and the ASCII lower-casing,
under which every question has the answer of its lower-case form. -/
theorem response_depends_on_lowercase_witness :
    generateResponse asciiLower "Reagent A?" = generateResponse asciiLower "REAGENT a?"
    ∧ generateResponse asciiLower "Reagent A?"
        = "Reagent A is consumed at 150 ml/day. Stock lasts ~13 days."
    ∧ (∀ q : String, generateResponse asciiLower q = generateResponse asciiLower (asciiLower q)) :=
  ⟨(response_depends_on_lowercase asciiLower (fun _ => (0 : ℚ)) "Reagent A?" "REAGENT a?"
      (by decide)).1,
    by decide,
    fun q => ((response_depends_on_lowercase asciiLower (fun _ => (0 : ℚ)) q q rfl).2.2.2
      (asciiLower_idem q)).1⟩

/-- C10, as stated, fails: with `Math.random` returning 0, the question "chart"
has its chart message scheduled with a delay of 1000 ms, below 2000 ms. -/
theorem chart_delay_below_two_seconds :
    ((run asciiLower (fun _ => (0 : ℚ)) initialState
        [.type "chart", .send, .timeout 0, .timeout 0, .timeout 0, .timeout 0]).timers.map
          (fun t => (t.callback, t.delay))) = [(.chartMessage, 1000)]
    ∧ ¬ (∀ t ∈ (run asciiLower (fun _ => (0 : ℚ)) initialState
            [.type "chart", .send, .timeout 0, .timeout 0, .timeout 0, .timeout 0]).timers,
          2000 ≤ t.delay ∧ t.delay ≤ 5000) := by
  have hrun : (run asciiLower (fun _ => (0 : ℚ)) initialState
        [.type "chart", .send, .timeout 0, .timeout 0, .timeout 0, .timeout 0]).timers
      = [{ delay := randomDelay (0 : ℚ) 1000 5000, callback := .chartMessage,
           env := { question := "chart", q := "chart", source := "General Lab Agent",
                    chartType := none, isRootCause := false } }] := by rfl
  have hdelay : randomDelay (0 : ℚ) 1000 5000 = 1000 := by norm_num [randomDelay]
  rw [hrun, hdelay]
  refine ⟨rfl, fun hall => ?_⟩
  have := (hall _ (List.mem_singleton.mpr rfl)).1
  norm_num at this

/-- C10, amended: for `Math.random` values in `[0, 1)` and integers `min ≤ max`,
`randomDelay min max` is an integer between `min` and `max`; every timer the
component ever has pending was scheduled with a delay of at most 5000 ms, at
least 2000 ms for Step 1, Step 2, Step 3, Step 4 and the final answer, and at
least 1000 ms for the chart message. -/
theorem timer_delays_in_range (toLowerCase : String → String) (rand : ℕ → α)
    (hrand : ∀ n, 0 ≤ rand n ∧ rand n < 1) :
    (∀ (random : α) (min max : Int), 0 ≤ random → random < 1 → min ≤ max →
        min ≤ randomDelay random min max ∧ randomDelay random min max ≤ max)
    ∧ (∀ (events : List Event), ∀ t ∈ (run toLowerCase rand initialState events).timers,
        (t.callback ≠ .chartMessage → 2000 ≤ t.delay ∧ t.delay ≤ 5000)
        ∧ (t.callback = .chartMessage → 1000 ≤ t.delay ∧ t.delay ≤ 5000)) := by
  refine ⟨fun random min max h0 h1 hmm => randomDelay_mem random min max h0 h1 hmm, ?_⟩
  intro events t ht
  have hin : t.inRange :=
    run_inRange toLowerCase rand hrand events initialState (by intro x hx; cases hx) t ht
  unfold Timer.inRange at hin
  constructor
  · intro hcb
    rw [if_neg hcb] at hin
    exact hin
  · intro hcb
    rw [if_pos hcb] at hin
    exact hin

/-- Witness for C10 amended: every draw equal to one half, and the delay that
`randomDelay(2000, 4000)` then returns. -/
theorem timer_delays_in_range_witness :
    ((∀ (random : ℚ) (min max : Int), 0 ≤ random → random < 1 → min ≤ max →
        min ≤ randomDelay random min max ∧ randomDelay random min max ≤ max)
      ∧ (∀ (events : List Event),
          ∀ t ∈ (run asciiLower (fun _ => (1 / 2 : ℚ)) initialState events).timers,
            (t.callback ≠ .chartMessage → 2000 ≤ t.delay ∧ t.delay ≤ 5000)
            ∧ (t.callback = .chartMessage → 1000 ≤ t.delay ∧ t.delay ≤ 5000)))
    ∧ randomDelay (1 / 2 : ℚ) 2000 4000 = 3000 :=
  ⟨timer_delays_in_range asciiLower (fun _ => (1 / 2 : ℚ)) (fun _ => by norm_num),
    by norm_num [randomDelay]⟩

end TurnResults

end LabAIAgentUI
